import Mathlib

/-!
Verification of the persist supervisor (src/persist/persist.c).

The program is a two-role supervisor: a Primary that daemonizes, forks a
disguised Watcher, and emits syslog heartbeats; and a Watcher that loops
running check_bin (restore the on-disk binary if missing) and check_run
(re-exec a new Primary if the peer died), after a best-effort identity
disguise (reset_comm).

The embedding below models the C functions over explicit state:
a small filesystem record for check_bin, boolean syscall outcomes for the
error-handling paths, an event list for the order of main's steps, and a
byte-list model of the /proc status rewrite in reset_comm.
-/

namespace Persist

/-- The name the binary is built under (persist.c line 31). -/
def BIN_NAME : String := "persist"

/-- The name the watcher process takes up (persist.c line 32). -/
def WATCHER_NAME : String := "bash"

/-- MAX_PATH defaults to 4096 via the ifndef block (persist.c lines 34-36);
nothing else in the file defines it, so the default applies. -/
def MAX_PATH : Nat := 4096

/-- Number of bytes zeroed by init's memset(exe, 0, MAX_PATH+1)
(persist.c line 67). -/
def init_memset_len : Nat := MAX_PATH + 1

/-- Declared element count of the global buffer: static char exe[PATH_MAX]
(persist.c line 41). PATH_MAX comes from limits.h, so it is a parameter here. -/
def exe_buf_len (path_max : Nat) : Nat := path_max

/-- name_offs: 6 chars for "Name:\t", 7 chars for "persist", 1 for "\n"
(persist.c line 180). -/
def name_offs : Nat := 14

/-- name_diff = strlen(BIN_NAME) - strlen(WATCHER_NAME), set by init
(persist.c line 76). -/
def name_diff : Int := (BIN_NAME.length : Int) - (WATCHER_NAME.length : Int)

/-- A file on disk: its byte contents and its permission mode bits. -/
structure FileData where
  bytes : List Nat
  mode : Nat
deriving DecidableEq, Repr

/-- The filesystem state check_bin touches: the file at the resolved original
path `exe` (the restore target), and the bytes of the running image reachable
through /proc/pid/exe (readable even after the target was unlinked). -/
structure FS where
  target : Option FileData
  image : List Nat
deriving DecidableEq, Repr

/-- The system calls check_bin issues, in order. -/
inductive Syscall where
  | stat
  | statProcExe
  | openWrite (mode : Nat)
  | openRead
  | sendfile (count : Nat)
  | close
deriving DecidableEq, Repr

/-- A syscall that mutates the filesystem: open-for-write (O_CREAT|O_WRONLY)
or the sendfile copy. stat, open-read and close do not write. -/
def Syscall.isWrite : Syscall → Bool
  | .openWrite _ => true
  | .sendfile _ => true
  | _ => false

/-- check_bin (persist.c lines 85-146), success-path semantics.

If stat(exe) succeeds (the target is present) it jumps to fin at once and
returns: the only syscall issued is the stat, dst and src stay 0 so no close
happens, and failed stays 0.

If the target is absent it stats /proc/getpid()/exe to get origlen = st.st_size
(the size of the running image, measured at this call), opens the target with
O_CREAT|O_WRONLY and mode 0755 (a freshly created file, so it starts empty),
opens the image read-only, and sendfiles origlen bytes from offset 0 of the
image into the target, then closes both descriptors.

The `exelen_cached` argument models the global `exelen` that init stored at
startup: the C body of check_bin never reads it, which is why the argument is
unused — the size is re-queried through the stat of /proc/getpid()/exe. -/
def check_bin (exelen_cached : Int) (fs : FS) : FS × List Syscall :=
  match fs.target with
  | some _ => (fs, [.stat])
  | none =>
    let origlen := fs.image.length
    let restored : FileData := { bytes := fs.image.take origlen, mode := 0o755 }
    ({ fs with target := some restored },
      [.stat, .statProcExe, .openWrite 0o755, .openRead,
       .sendfile origlen, .close, .close])

/-- The failed flag computed by check_bin's goto-fin error handling
(persist.c lines 106-130), as a function of each syscall's return value.
`origlen` is the byte count passed to sendfile; the C code never compares
sendfile's return value against it — only against -1 — which is why the
argument is unused in the body. -/
def check_bin_failed (origlen : Int)
    (stat_ret dst_ret src_ret sendfile_ret : Int) : Bool :=
  if stat_ret = -1 then true
  else if dst_ret = -1 then true
  else if src_ret = -1 then true
  else if sendfile_ret = -1 then true
  else false

/-- What a check becomes for the process: it returns to the caller, replaces
the process image (execv success), or terminates the process
(err(EXIT_FAILURE, ...)). -/
inductive Outcome where
  | returned
  | replaced (path : String) (argv : List String)
  | fatal
deriving DecidableEq, Repr

/-- check_bin's effect on the process when the restore path runs: if the
failed flag was set along the stat/open/sendfile sequence, err(EXIT_FAILURE)
terminates the process (persist.c lines 143-145); otherwise the call returns. -/
def check_bin_outcome (origlen : Int)
    (stat_ret dst_ret src_ret sendfile_ret : Int) : Outcome :=
  if check_bin_failed origlen stat_ret dst_ret src_ret sendfile_ret then
    .fatal
  else
    .returned

/-- check_run (persist.c lines 159-176). It stats /proc/pid; if that succeeds
the peer is alive and check_run returns. Otherwise it calls
execv(exe, nargv) with nargv = {BIN_NAME, NULL}. On execv success the process
image is replaced; the C never inspects execv's return value, so on execv
failure control falls off the end of check_run and the call returns normally
into the watch loop. -/
def check_run (peer_alive : Bool) (exec_ok : Bool) (exe_path : String) : Outcome :=
  if peer_alive then .returned
  else if exec_ok then .replaced exe_path [BIN_NAME]
  else .returned

/-- The steps main performs, in program order (persist.c lines 298-327). -/
inductive Ev where
  | set_pid_ppid
  | reset_comm
  | daemon (nochdir noclose : Nat)
  | set_pid_self
  | init
  | openlog
  | fork
  | exec_child (argv0 : String)
  | spam
  | watch
deriving DecidableEq, Repr

/-- glibc daemon(nochdir, noclose) redirects stdin/stdout/stderr to /dev/null
only when noclose is 0; with a nonzero noclose the standard streams are left
untouched. -/
def daemon_redirects_streams (noclose : Nat) : Bool :=
  noclose == 0

/-- glibc daemon(nochdir, noclose) changes the working directory to / only
when nochdir is 0. -/
def daemon_changes_dir (nochdir : Nat) : Bool :=
  nochdir == 0

/-- The ordered steps of main (persist.c lines 298-327), as one trace of the
process tree. If argv[0] equals WATCHER_NAME: pid = getppid(), reset_comm(),
then init(), openlog(), and — since pid is then the parent's, not getpid() —
the watch loop. Otherwise: daemon(1, 1), pid = getpid(), init(), openlog(),
then fork(); the child execvp's the binary under WATCHER_NAME while the
parent enters the spam loop. -/
def main_events (argv0 : String) : List Ev :=
  if argv0 = WATCHER_NAME then
    [.set_pid_ppid, .reset_comm, .init, .openlog, .watch]
  else
    [.daemon 1 1, .set_pid_self, .init, .openlog, .fork,
     .exec_child WATCHER_NAME, .spam]

/-- The global pid variable as set by main's watcher branch before it calls
reset_comm: pid = getppid() (persist.c line 304). -/
def watcher_global_pid (self_pid parent_pid : Nat) : Nat :=
  parent_pid

/-- The process identifier whose /proc/<pid>/comm file reset_comm's first
step opens: the C formats "/proc/%u/comm" with the global pid
(persist.c line 206). -/
def reset_comm_comm_pid (global_pid self_pid : Nat) : Nat :=
  global_pid

/-- The process identifier whose /proc/<pid>/status file reset_comm's second
step opens: the C formats "/proc/%u/status" with getpid()
(persist.c line 218). -/
def reset_comm_status_pid (global_pid self_pid : Nat) : Nat :=
  self_pid

/-- Bytes of a string, for the byte-level model of the status rewrite. -/
def bytes (s : String) : List Nat :=
  s.toList.map Char.toNat

/-- Overwrite the elements of l from position i on with xs, keeping the rest:
the effect of strcpy/fread into the middle of a larger buffer. -/
def overwrite (l : List Nat) (i : Nat) (xs : List Nat) : List Nat :=
  l.take i ++ xs ++ l.drop (i + xs.length)

/-- The byte sequence reset_comm writes back to /proc/pid/status
(persist.c lines 224-255), with the initial value of the local variable
`offs` made explicit as offs0 — the C declares `off_t len, offs;` and then
runs `offs += 6;` without ever assigning offs first, so the splice position
depends on whatever value the uninitialized variable happens to hold.

Steps of the C code: memset(buf, 0, 4096); strcpy(buf, "Name:\t");
offs += 6; strcpy(buf+offs, WATCHER_NAME); offs += strlen(WATCHER_NAME);
buf[offs++] = 0xa; fread(buf+offs, 1, len-name_offs, comm) after
fseek(comm, name_offs, SEEK_SET); fwrite(buf, 1, len-name_diff, comm). -/
def status_rewrite (offs0 : Nat) (status : List Nat) : List Nat :=
  let len := status.length
  let buf0 : List Nat := List.replicate 4096 0
  let buf1 := overwrite buf0 0 (bytes "Name:\t")
  let offs1 := offs0 + 6
  let buf2 := overwrite buf1 offs1 (bytes WATCHER_NAME)
  let offs2 := offs1 + WATCHER_NAME.length
  let buf3 := overwrite buf2 offs2 [0xa]
  let offs3 := offs2 + 1
  let buf4 := overwrite buf3 offs3 (status.drop name_offs)
  buf4.take (len - name_diff.toNat)

/-- The well-formed rewritten status record: the name field replaced by
WATCHER_NAME and every byte after the original name line kept unchanged. -/
def status_expected (status : List Nat) : List Nat :=
  bytes "Name:\t" ++ bytes WATCHER_NAME ++ [0xa] ++ status.drop name_offs

/-- A concrete two-field status record: "Name:\tpersist\n" then "Pid:\t1\n". -/
def demo_status : List Nat :=
  bytes "Name:\tpersist\n" ++ bytes "Pid:\t1\n"

end Persist

namespace Persist

/-- C1: for a missing target, one check_bin call restores the target from the
running image: it exists afterwards, carries mode 0755 (all three execute bits
set), and its bytes are exactly the current image's bytes, whose length is the
size measured at this call — for every value of the cached exelen global,
which check_bin does not consult. -/
theorem check_bin_restores_missing (exelen_cached : Int) (fs : FS)
    (h : fs.target = none) :
    ∃ fd : FileData,
      ((check_bin exelen_cached fs).1).target = some fd ∧
      fd.mode = 0o755 ∧
      fd.mode &&& 0o111 = 0o111 ∧
      fd.bytes = fs.image ∧
      fd.bytes.length = fs.image.length := by
  refine ⟨{ bytes := fs.image.take fs.image.length, mode := 0o755 }, ?_, rfl, ?_, ?_, ?_⟩
  · simp [check_bin, h]
  · show (0o755 : Nat) &&& 0o111 = 0o111
    decide
  · simp
  · simp

/-- C1 witness: a concrete missing target with a three-byte running image. -/
theorem check_bin_restores_missing_witness :
    (({ target := none, image := [7, 8, 9] } : FS)).target = none ∧
    ∃ fd : FileData,
      ((check_bin 0 { target := none, image := [7, 8, 9] }).1).target = some fd ∧
      fd.mode = 0o755 ∧
      fd.mode &&& 0o111 = 0o111 ∧
      fd.bytes = ({ target := none, image := [7, 8, 9] } : FS).image ∧
      fd.bytes.length = ({ target := none, image := [7, 8, 9] } : FS).image.length :=
  ⟨rfl, check_bin_restores_missing 0 { target := none, image := [7, 8, 9] } rfl⟩

/-- C6: when the target already exists, check_bin leaves the filesystem
unchanged, issues only the initial stat, and in particular issues no
open-for-write, no sendfile, and no write syscall of any kind. -/
theorem check_bin_existing_noop (exelen_cached : Int) (fs : FS) (fd : FileData)
    (h : fs.target = some fd) :
    (check_bin exelen_cached fs).1 = fs ∧
    (check_bin exelen_cached fs).2 = [Syscall.stat] ∧
    ∀ s ∈ (check_bin exelen_cached fs).2, s.isWrite = false := by
  refine ⟨?_, ?_, ?_⟩
  · simp [check_bin, h]
  · simp [check_bin, h]
  · intro s hs
    simp [check_bin, h] at hs
    subst hs
    rfl

/-- C4 counterexample: with a measured size of 100 bytes, a sendfile return of
50 is a partial transfer (0 ≤ 50 < 100), yet check_bin's failed flag stays
clear and the call returns instead of terminating the process, so the claim
that any partial transfer is fatal is false on the code. -/
theorem check_bin_partial_transfer_not_fatal :
    (0 : Int) ≤ 50 ∧ (50 : Int) < 100 ∧
    check_bin_failed 100 3 4 5 50 = false ∧
    check_bin_outcome 100 3 4 5 50 = Outcome.returned ∧
    Outcome.returned ≠ Outcome.fatal := by
  refine ⟨by decide, by decide, rfl, rfl, by decide⟩

/-- C4 amended: along the restore path, exactly the calls that report an error
by returning -1 (the stat of the running image, either open, or sendfile) set
the failed flag and terminate the process via err(EXIT_FAILURE); a sendfile
return that is not -1 — including a partial transfer smaller than the measured
size — is not treated as a failure, and nothing is retried. -/
theorem check_bin_fatal_iff_syscall_error
    (origlen stat_ret dst_ret src_ret sendfile_ret : Int) :
    check_bin_outcome origlen stat_ret dst_ret src_ret sendfile_ret = Outcome.fatal ↔
      (stat_ret = -1 ∨ dst_ret = -1 ∨ src_ret = -1 ∨ sendfile_ret = -1) := by
  by_cases h1 : stat_ret = -1 <;>
    by_cases h2 : dst_ret = -1 <;>
      by_cases h3 : src_ret = -1 <;>
        by_cases h4 : sendfile_ret = -1 <;>
          simp [check_bin_outcome, check_bin_failed, h1, h2, h3, h4]

/-- C2 counterexample: with the peer gone and execv failing, check_run
returns normally (the C never inspects execv's return value), so the process
does not terminate abnormally — it continues into the watch loop. -/
theorem check_run_exec_failure_not_fatal :
    check_run false false "/usr/local/bin/persist" = Outcome.returned ∧
    Outcome.returned ≠ Outcome.fatal := by
  refine ⟨rfl, by decide⟩

/-- C2 amended: if the image-replacement call fails (for example because the
resolved original path is unreadable or not executable), check_run returns
normally and the process keeps running its watch loop; the failure is neither
detected nor surfaced, and no abnormal termination occurs. -/
theorem check_run_exec_failure_returns (exe_path : String) :
    check_run false false exe_path = Outcome.returned := by
  rfl

/-- C3: with the peer process gone, one check_run call replaces the process
image with the resolved original path, passing the argument vector
{BIN_NAME, NULL} whose first element is BIN_NAME; with the peer alive,
check_run returns with no replacement, whatever execv would have done. -/
theorem check_run_liveness (exe_path : String) (exec_ok : Bool) :
    check_run false true exe_path = Outcome.replaced exe_path [BIN_NAME] ∧
    [BIN_NAME].head? = some BIN_NAME ∧
    check_run true exec_ok exe_path = Outcome.returned := by
  refine ⟨rfl, rfl, rfl⟩

/-- C6 witness: a concrete state whose target is present. -/
theorem check_bin_existing_noop_witness :
    (({ target := some { bytes := [1], mode := 0o755 }, image := [1] } : FS)).target
        = some { bytes := [1], mode := 0o755 } ∧
    ((check_bin 1 { target := some { bytes := [1], mode := 0o755 }, image := [1] }).1
        = { target := some { bytes := [1], mode := 0o755 }, image := [1] } ∧
      (check_bin 1 { target := some { bytes := [1], mode := 0o755 }, image := [1] }).2
        = [Syscall.stat] ∧
      ∀ s ∈ (check_bin 1 { target := some { bytes := [1], mode := 0o755 }, image := [1] }).2,
        s.isWrite = false) :=
  ⟨rfl, check_bin_existing_noop 1 _ _ rfl⟩

/-- C5 counterexample: in the watcher process, the disguise step (reset_comm)
runs strictly before the path-resolution step (init) in main's trace, so
resolution does not precede all role-specific work. -/
theorem watcher_disguise_before_init :
    (main_events WATCHER_NAME).indexOf Ev.reset_comm <
      (main_events WATCHER_NAME).indexOf Ev.init := by
  decide

/-- C5 amended: in every process, the path-resolution step (init) runs before
the supervision loops and before the fork — before watch in the Watcher, and
before fork and spam in the Primary — but not before everything: main's
watcher branch calls reset_comm before init, and its primary branch calls
daemon before init. -/
theorem init_before_loops (argv0 : String) :
    (main_events argv0).indexOf Ev.init < (main_events argv0).indexOf Ev.watch ∧
    (main_events argv0).indexOf Ev.init < (main_events argv0).indexOf Ev.fork ∧
    (main_events argv0).indexOf Ev.init < (main_events argv0).indexOf Ev.spam := by
  unfold main_events
  split <;> decide

/-- C9 counterexample: main's primary branch calls daemon(1, 1); with
noclose = 1 the standard streams are not redirected, so the claim that the
Primary's daemonization redirects its standard streams is false on the code. -/
theorem primary_daemon_keeps_streams :
    Ev.daemon 1 1 ∈ main_events BIN_NAME ∧
    daemon_redirects_streams 1 = false := by
  decide

/-- C9 amended: when the invocation identity differs from WATCHER_NAME, main
takes the primary branch: it calls daemon(1, 1) — becoming a session leader
while neither changing the working directory nor redirecting the standard
streams — and then forks exactly once. -/
theorem primary_daemonizes_forks_once (argv0 : String) (h : argv0 ≠ WATCHER_NAME) :
    main_events argv0 =
      [Ev.daemon 1 1, Ev.set_pid_self, Ev.init, Ev.openlog, Ev.fork,
       Ev.exec_child WATCHER_NAME, Ev.spam] ∧
    List.count Ev.fork (main_events argv0) = 1 ∧
    daemon_changes_dir 1 = false ∧
    daemon_redirects_streams 1 = false := by
  have ht : main_events argv0 =
      [Ev.daemon 1 1, Ev.set_pid_self, Ev.init, Ev.openlog, Ev.fork,
       Ev.exec_child WATCHER_NAME, Ev.spam] := by
    simp [main_events, h]
  refine ⟨ht, ?_, rfl, rfl⟩
  rw [ht]
  decide

/-- C9 witness: the primary branch at the concrete invocation identity
BIN_NAME, which differs from WATCHER_NAME. -/
theorem primary_daemonizes_forks_once_witness :
    BIN_NAME ≠ WATCHER_NAME ∧
    (main_events BIN_NAME =
      [Ev.daemon 1 1, Ev.set_pid_self, Ev.init, Ev.openlog, Ev.fork,
       Ev.exec_child WATCHER_NAME, Ev.spam] ∧
    List.count Ev.fork (main_events BIN_NAME) = 1 ∧
    daemon_changes_dir 1 = false ∧
    daemon_redirects_streams 1 = false) :=
  ⟨by decide, primary_daemonizes_forks_once BIN_NAME (by decide)⟩

/-- C7: in a watcher whose own pid is 1234 and whose parent is 999, the comm
file reset_comm opens belongs to pid 999 — the parent recorded by
pid = getppid() in main — and not to the process itself, while the status
step does address the process itself via getpid(). The disguise therefore
rewrites the short name of the parent process, not the watcher's own. -/
theorem reset_comm_renames_parent_not_self :
    reset_comm_comm_pid (watcher_global_pid 1234 999) 1234 = 999 ∧
    reset_comm_comm_pid (watcher_global_pid 1234 999) 1234 ≠ 1234 ∧
    reset_comm_status_pid (watcher_global_pid 1234 999) 1234 = 1234 := by
  decide

/-- C8: on the two-field record demo_status, the status rewrite produces the
well-formed spliced record only when the uninitialized offset variable
happens to start at 0; if it starts at 1 the written record differs from the
well-formed splice and contains a stray NUL byte inside the name line, so the
record's fields are corrupted. -/
theorem status_rewrite_uninit_offs_corrupts :
    status_rewrite 0 demo_status = status_expected demo_status ∧
    status_rewrite 1 demo_status ≠ status_expected demo_status ∧
    (0 : Nat) ∈ status_rewrite 1 demo_status := by
  decide

/-- C10: init's memset zero-fills MAX_PATH + 1 = 4097 bytes of the exe
buffer, which is declared with PATH_MAX elements; whenever PATH_MAX is at
most 4096 the zero-fill writes past the end of the buffer. -/
theorem init_memset_overflows (path_max : Nat) (h : path_max ≤ 4096) :
    exe_buf_len path_max < init_memset_len := by
  unfold exe_buf_len init_memset_len MAX_PATH
  omega

/-- C10 witness: the Linux value PATH_MAX = 4096. -/
theorem init_memset_overflows_witness :
    4096 ≤ 4096 ∧ exe_buf_len 4096 < init_memset_len :=
  ⟨by decide, init_memset_overflows 4096 (by decide)⟩

end Persist
